import Mathlib

/-!
Shallow embedding of the "Walk the Dog" browser game (src/src/game.rs plus the
engine types it imports) for checking the natural-language specification.

Machine integers: `i16` fields (positions, velocities, screen constants) are
modelled as `Int`; the `u8` animation frame counter is modelled as `Nat`.  In
every reachable state the frame counter stays below 36 and all coordinates stay
far inside the `i16` range, so no wrap-around of the machine types is
observable in the properties proved here.
-/

namespace WalkTheDogModel

/-- Modelled from the spec: `engine::Point` (the final engine module the game
imports is not under `src/`; `src/src/engine.rs` is an older snapshot without
it).  An integer `{x, y}` pair used for both positions and velocities (§3). -/
structure Point where
  x : Int
  y : Int
deriving DecidableEq, Repr

/-- Modelled from the spec: `engine::Rect`, an axis-aligned `{x, y, w, h}` box
(§3). -/
structure Rect where
  x : Int
  y : Int
  w : Int
  h : Int
deriving DecidableEq, Repr

def Rect.right (r : Rect) : Int := r.x + r.w

def Rect.bottom (r : Rect) : Int := r.y + r.h

/-- Modelled from the spec: the derived AABB intersection test of
`engine::Rect` (§3: "axis-aligned rectangles with intersection tests"). -/
def Rect.intersects (a b : Rect) : Bool :=
  decide (a.x < b.right) && decide (a.right > b.x) &&
    decide (a.y < b.bottom) && decide (a.bottom > b.y)

def Rect.setX (r : Rect) (v : Int) : Rect := { r with x := v }

def Rect.setY (r : Rect) (v : Int) : Rect := { r with y := v }

-- Constants from src/src/game.rs.
def HEIGHT : Int := 600
def TIMELINE_MINIMUM : Int := 1000
def OBSTACLE_BUFFER : Int := 20

-- Constants from the red_hat_boy_states module of src/src/game.rs.
def FLOOR : Int := 479
def PLAYER_HEIGHT : Int := HEIGHT - FLOOR
def STARTING_POINT : Int := -20
def IDLE_FRAMES : Nat := 30
def RUNNING_FRAMES : Nat := 24
def SLIDING_FRAMES : Nat := 15
def JUMPING_FRAMES : Nat := 36
def FALLING_FRAMES : Nat := 30
def RUNNING_SPEED : Int := 3
def JUMP_SPEED : Int := -25
def GRAVITY : Int := 1
def TERMINAL_VELOCITY : Int := 20

/-- Source `RedHatBoyContext` from src/src/game.rs: frame counter, position and
velocity of the character. -/
structure RedHatBoyContext where
  frame : Nat
  position : Point
  velocity : Point
deriving DecidableEq, Repr

/-- Source `RedHatBoyContext::update`: apply gravity up to the terminal velocity,
advance the frame counter modulo `frame_count`, integrate the vertical
position and clamp it to the floor. -/
def RedHatBoyContext.update (c : RedHatBoyContext) (frame_count : Nat) :
    RedHatBoyContext :=
  let vy := if c.velocity.y < TERMINAL_VELOCITY then c.velocity.y + GRAVITY
            else c.velocity.y
  { frame := (c.frame + 1) % frame_count
    position := ⟨c.position.x, min (c.position.y + vy) FLOOR⟩
    velocity := ⟨c.velocity.x, vy⟩ }

/-- Source `RedHatBoyContext::reset_frame`. -/
def RedHatBoyContext.reset_frame (c : RedHatBoyContext) : RedHatBoyContext :=
  { c with frame := 0 }

/-- Source `RedHatBoyContext::run_right`. -/
def RedHatBoyContext.run_right (c : RedHatBoyContext) : RedHatBoyContext :=
  { c with velocity := ⟨c.velocity.x + RUNNING_SPEED, c.velocity.y⟩ }

/-- Source `RedHatBoyContext::set_vertical_velocity`. -/
def RedHatBoyContext.set_vertical_velocity (c : RedHatBoyContext) (y : Int) :
    RedHatBoyContext :=
  { c with velocity := ⟨c.velocity.x, y⟩ }

/-- Source `RedHatBoyContext::stop`: zero the horizontal velocity and set the
vertical velocity to the gravity constant. -/
def RedHatBoyContext.stop (c : RedHatBoyContext) : RedHatBoyContext :=
  { c with velocity := ⟨0, GRAVITY⟩ }

/-- Source `RedHatBoyContext::set_on`: snap the vertical position so the character's
feet rest at `position`. -/
def RedHatBoyContext.set_on (c : RedHatBoyContext) (position : Int) :
    RedHatBoyContext :=
  { c with position := ⟨c.position.x, position - PLAYER_HEIGHT⟩ }

/-- The closed union of typestates `RedHatBoyStateMachine`; each variant of
src/src/game.rs wraps a `RedHatBoyState<S>` whose only data is the context. -/
inductive RedHatBoyStateMachine where
  | idle (c : RedHatBoyContext)
  | running (c : RedHatBoyContext)
  | sliding (c : RedHatBoyContext)
  | jumping (c : RedHatBoyContext)
  | falling (c : RedHatBoyContext)
  | knockedOut (c : RedHatBoyContext)
deriving DecidableEq, Repr

/-- Source `RedHatBoyState::<Idle>::new()`. -/
def idleNewState : RedHatBoyStateMachine :=
  .idle ⟨0, ⟨STARTING_POINT, FLOOR⟩, ⟨0, 0⟩⟩

/-- Source `RedHatBoyState<Idle>::run`. -/
def Idle.run (c : RedHatBoyContext) : RedHatBoyContext :=
  c.reset_frame.run_right

/-- Source `RedHatBoyState<Idle>::update`. -/
def Idle.update (c : RedHatBoyContext) : RedHatBoyContext :=
  c.update IDLE_FRAMES

/-- Source `RedHatBoyState<Running>::update`. -/
def Running.update (c : RedHatBoyContext) : RedHatBoyContext :=
  c.update RUNNING_FRAMES

/-- Source `RedHatBoyState<Running>::slide`. -/
def Running.slide (c : RedHatBoyContext) : RedHatBoyContext :=
  c.reset_frame

/-- Source `RedHatBoyState<Running>::jump`. -/
def Running.jump (c : RedHatBoyContext) : RedHatBoyContext :=
  (c.set_vertical_velocity JUMP_SPEED).reset_frame

/-- Source `RedHatBoyState<Running>::knock_out`. -/
def Running.knock_out (c : RedHatBoyContext) : RedHatBoyContext :=
  c.reset_frame.stop

/-- Source `RedHatBoyState<Running>::land_on` (note: no frame reset here, unlike the
`Jumping` version). -/
def Running.land_on (c : RedHatBoyContext) (position : Int) : RedHatBoyContext :=
  c.set_on position

/-- Source `RedHatBoyState<Sliding>::stand`. -/
def Sliding.stand (c : RedHatBoyContext) : RedHatBoyContext :=
  c.reset_frame

/-- Source `RedHatBoyState<Sliding>::knock_out`. -/
def Sliding.knock_out (c : RedHatBoyContext) : RedHatBoyContext :=
  c.reset_frame.stop

/-- Source `RedHatBoyState<Sliding>::update`, with the `SlidingEndState` sub-union
collapsed into the machine through its `From` conversion. -/
def Sliding.update (c : RedHatBoyContext) : RedHatBoyStateMachine :=
  let c := c.update SLIDING_FRAMES
  if c.frame + 1 ≥ SLIDING_FRAMES then .running (Sliding.stand c)
  else .sliding c

/-- Source `RedHatBoyState<Jumping>::land_on`. -/
def Jumping.land_on (c : RedHatBoyContext) (position : Int) : RedHatBoyContext :=
  c.reset_frame.set_on position

/-- Source `RedHatBoyState<Jumping>::knock_out`. -/
def Jumping.knock_out (c : RedHatBoyContext) : RedHatBoyContext :=
  c.reset_frame.stop

/-- Source `RedHatBoyState<Jumping>::update`, with the `JumpingEndState` sub-union
collapsed into the machine through its `From` conversion. -/
def Jumping.update (c : RedHatBoyContext) : RedHatBoyStateMachine :=
  let c := c.update JUMPING_FRAMES
  if c.position.y ≥ FLOOR then .running (Jumping.land_on c HEIGHT)
  else .jumping c

/-- Source `RedHatBoyState<Falling>::knock_out` (the context is carried over
unchanged — in particular the frame counter is not reset). -/
def Falling.knock_out (c : RedHatBoyContext) : RedHatBoyContext := c

/-- Source `RedHatBoyState<Falling>::update`, with the `FallingEndState` sub-union
collapsed into the machine through its `From` conversion. -/
def Falling.update (c : RedHatBoyContext) : RedHatBoyStateMachine :=
  let c := c.update FALLING_FRAMES
  if c.frame + 1 ≥ FALLING_FRAMES then .knockedOut (Falling.knock_out c)
  else .falling c

/-- The `Event` enum of src/src/game.rs. -/
inductive Event where
  | run
  | slide
  | jump
  | knockOut
  | land (position : Int)
  | update
deriving DecidableEq, Repr

/-- Source `RedHatBoyStateMachine::transition`: the arms mirror the `match` of
src/src/game.rs lines 386-407, with the same catch-all returning the machine
unchanged. -/
def RedHatBoyStateMachine.transition (m : RedHatBoyStateMachine) (e : Event) :
    RedHatBoyStateMachine :=
  match m, e with
  | .idle c, .run => .running (Idle.run c)
  | .running c, .slide => .sliding (Running.slide c)
  | .running c, .jump => .jumping (Running.jump c)
  | .running c, .knockOut => .falling (Running.knock_out c)
  | .sliding c, .knockOut => .falling (Sliding.knock_out c)
  | .jumping c, .knockOut => .falling (Jumping.knock_out c)
  | .idle c, .update => .idle (Idle.update c)
  | .running c, .update => .running (Running.update c)
  | .sliding c, .update => Sliding.update c
  | .jumping c, .update => Jumping.update c
  | .falling c, .update => Falling.update c
  | .jumping c, .land position => .running (Jumping.land_on c position)
  | .running c, .land position => .running (Running.land_on c position)
  | _, _ => m

/-- Source `RedHatBoyStateMachine::context`. -/
def RedHatBoyStateMachine.context : RedHatBoyStateMachine → RedHatBoyContext
  | .idle c | .running c | .sliding c | .jumping c | .falling c
  | .knockedOut c => c

/-- The per-variant frame-name label returned by the `frame_name` methods of
the six states ("Dead" serves both Falling and KnockedOut). -/
def RedHatBoyStateMachine.frame_name : RedHatBoyStateMachine → String
  | .idle _ => "Idle"
  | .running _ => "Run"
  | .sliding _ => "Slide"
  | .jumping _ => "Jump"
  | .falling _ => "Dead"
  | .knockedOut _ => "Dead"

/-- The variant tag of a machine value, for talking about state-changing
transitions. -/
inductive StateTag where
  | idle
  | running
  | sliding
  | jumping
  | falling
  | knockedOut
deriving DecidableEq, Repr

def tagOf : RedHatBoyStateMachine → StateTag
  | .idle _ => .idle
  | .running _ => .running
  | .sliding _ => .sliding
  | .jumping _ => .jumping
  | .falling _ => .falling
  | .knockedOut _ => .knockedOut

/-- The total animation frame count of each state's sprite cycle, as passed to
`RedHatBoyContext::update` by that state's `update` method (KnockedOut shares
the "Dead" animation of Falling). -/
def frameCount : RedHatBoyStateMachine → Nat
  | .idle _ => IDLE_FRAMES
  | .running _ => RUNNING_FRAMES
  | .sliding _ => SLIDING_FRAMES
  | .jumping _ => JUMPING_FRAMES
  | .falling _ => FALLING_FRAMES
  | .knockedOut _ => FALLING_FRAMES

/-- Machine states reachable from `RedHatBoyState::<Idle>::new()` by event
delivery. -/
inductive Reachable : RedHatBoyStateMachine → Prop
  | init : Reachable idleNewState
  | step {m : RedHatBoyStateMachine} (e : Event) :
      Reachable m → Reachable (m.transition e)

theorem reachable_after_events (evs : List Event) (m : RedHatBoyStateMachine)
    (h : Reachable m) :
    Reachable (evs.foldl RedHatBoyStateMachine.transition m) := by
  induction evs generalizing m with
  | nil => exact h
  | cons e rest ih => exact ih _ (Reachable.step e h)

/-- Modelled from the spec: a sprite-sheet cell (§6: a mapping entry holding a
frame rectangle "plus source-offset"); the final engine module is not under
`src/`. -/
structure Cell where
  frame : Rect
  sprite_source_size : Point
deriving DecidableEq, Repr

/-- Source `RedHatBoy` from src/src/game.rs: the state machine together with its
sprite sheet (the `HashMap<String, Cell>` is modelled as an association list;
the image element itself plays no role in the simulation). -/
structure RedHatBoy where
  state_machine : RedHatBoyStateMachine
  sprite_sheet : List (String × Cell)
deriving DecidableEq, Repr

/-- Source `RedHatBoy::frame_name`: `"{state-label} ({frame/3 + 1}).png"`. -/
def RedHatBoy.frame_name (b : RedHatBoy) : String :=
  b.state_machine.frame_name ++ " (" ++
    toString (b.state_machine.context.frame / 3 + 1) ++ ").png"

/-- Source `RedHatBoy::current_sprite`. -/
def RedHatBoy.current_sprite (b : RedHatBoy) : Option Cell :=
  List.lookup b.frame_name b.sprite_sheet

/-- Source `RedHatBoy::destination_box`; `none` models the `expect` panic on a
missing sprite cell. -/
def RedHatBoy.destination_box (b : RedHatBoy) : Option Rect :=
  b.current_sprite.map fun sprite =>
    ⟨b.state_machine.context.position.x + sprite.sprite_source_size.x,
     b.state_machine.context.position.y + sprite.sprite_source_size.y,
     sprite.frame.w, sprite.frame.h⟩

/-- Source `RedHatBoy::bounding_box`, shrinking the destination box by the fixed
X/Y/W offsets 18, 14, 28. -/
def RedHatBoy.bounding_box (b : RedHatBoy) : Option Rect :=
  b.destination_box.map fun d => ⟨d.x + 18, d.y + 14, d.w - 28, d.h - 14⟩

/-- Source `RedHatBoy::pos_y`. -/
def RedHatBoy.pos_y (b : RedHatBoy) : Int :=
  b.state_machine.context.position.y

/-- Source `RedHatBoy::velocity_y`. -/
def RedHatBoy.velocity_y (b : RedHatBoy) : Int :=
  b.state_machine.context.velocity.y

/-- Source `RedHatBoy::walk_speed`. -/
def RedHatBoy.walk_speed (b : RedHatBoy) : Int :=
  b.state_machine.context.velocity.x

/-- Source `RedHatBoy::update`. -/
def RedHatBoy.update (b : RedHatBoy) : RedHatBoy :=
  { b with state_machine := b.state_machine.transition .update }

/-- Source `RedHatBoy::run_right`. -/
def RedHatBoy.run_right (b : RedHatBoy) : RedHatBoy :=
  { b with state_machine := b.state_machine.transition .run }

/-- Source `RedHatBoy::slide`. -/
def RedHatBoy.slide (b : RedHatBoy) : RedHatBoy :=
  { b with state_machine := b.state_machine.transition .slide }

/-- Source `RedHatBoy::jump`. -/
def RedHatBoy.jump (b : RedHatBoy) : RedHatBoy :=
  { b with state_machine := b.state_machine.transition .jump }

/-- Source `RedHatBoy::knock_out`. -/
def RedHatBoy.knock_out (b : RedHatBoy) : RedHatBoy :=
  { b with state_machine := b.state_machine.transition .knockOut }

/-- Source `RedHatBoy::land_on`. -/
def RedHatBoy.land_on (b : RedHatBoy) (position : Int) : RedHatBoy :=
  { b with state_machine := b.state_machine.transition (.land position) }

/-- Modelled from the spec: `engine::Image` (not under `src/`), reduced to the
bounding box used for collision, scrolling and retirement. -/
structure Image where
  bounding_box : Rect
deriving DecidableEq, Repr

def Image.move_horizontally (i : Image) (x : Int) : Image :=
  ⟨i.bounding_box.setX (i.bounding_box.x + x)⟩

def Image.set_x (i : Image) (x : Int) : Image :=
  ⟨i.bounding_box.setX x⟩

def Image.right (i : Image) : Int := i.bounding_box.right

/-- The two concrete `Obstacle` implementers of src/src/game.rs, as a closed
union: a `Platform` keeps its visual position and the list of cached bounding
boxes (its sprite sheet and cells play no role in the simulation), a `Barrier`
keeps its image. -/
inductive Obstacle where
  | platform (position : Point) (bounding_boxes : List Rect)
  | barrier (image : Image)
deriving DecidableEq, Repr

/-- Source `Platform::move_horizontally` / `Barrier::move_horizontally`. -/
def Obstacle.move_horizontally (o : Obstacle) (x : Int) : Obstacle :=
  match o with
  | .platform position bounding_boxes =>
      .platform ⟨position.x + x, position.y⟩
        (bounding_boxes.map fun b => b.setX (b.x + x))
  | .barrier image => .barrier (image.move_horizontally x)

/-- Source `Platform::right` / `Barrier::right`. -/
def Obstacle.right (o : Obstacle) : Int :=
  match o with
  | .platform _ bounding_boxes =>
      (bounding_boxes.getLast?.getD ⟨0, 0, 0, 0⟩).right
  | .barrier image => image.right

/-- Source `Platform::check_intersection` / `Barrier::check_intersection`.  `none`
models the panic of `RedHatBoy::bounding_box` on a missing sprite cell (for an
empty platform box list the closure never runs, so no panic can occur). -/
def Obstacle.check_intersection (o : Obstacle) (boy : RedHatBoy) :
    Option RedHatBoy :=
  match o with
  | .platform position bounding_boxes =>
    match bounding_boxes with
    | [] => some boy
    | _ :: _ =>
      match boy.bounding_box with
      | none => none
      | some bb =>
        match bounding_boxes.find? (fun box => bb.intersects box) with
        | some box_to_land_on =>
          if boy.velocity_y > 0 ∧ boy.pos_y < position.y then
            some (boy.land_on box_to_land_on.y)
          else
            some boy.knock_out
        | none => some boy
  | .barrier image =>
    match boy.bounding_box with
    | none => none
    | some bb =>
      if bb.intersects image.bounding_box then some boy.knock_out else some boy

/-- Source `rightmost` from src/src/game.rs. -/
def rightmost (obstacle_list : List Obstacle) : Int :=
  ((obstacle_list.map Obstacle.right).max?).getD 0

/-- Modelled from the spec: `engine::KeyState` (not under `src/`), polled for
exactly the three keys the game reads (§6). -/
structure KeyState where
  arrowRight : Bool
  arrowDown : Bool
  space : Bool
deriving DecidableEq, Repr

/-- The `Walk` world state of src/src/game.rs (the shared sprite-sheet and
stone-image handles only feed the spawner, which is passed in explicitly
here). -/
structure Walk where
  boy : RedHatBoy
  background : Image × Image
  obstacles : List Obstacle
  timeline : Int
deriving DecidableEq, Repr

/-- Source `Walk::velocity`. -/
def Walk.velocity (w : Walk) : Int := -w.boy.walk_speed

/-- The key-event block at the top of `WalkTheDog::update`: deliver `Run`,
`Slide`, `Jump` for whichever of the three keys are pressed. -/
def applyKeys (keystate : KeyState) (boy : RedHatBoy) : RedHatBoy :=
  let boy := if keystate.arrowRight then boy.run_right else boy
  let boy := if keystate.arrowDown then boy.slide else boy
  if keystate.space then boy.jump else boy

/-- One `iter_mut().for_each` pass of `WalkTheDog::update`: move each obstacle
by the scroll velocity and immediately collision-check it against the
character, left to right. -/
def passOnce (velocity : Int) :
    List Obstacle → RedHatBoy → Option (List Obstacle × RedHatBoy)
  | [], boy => some ([], boy)
  | o :: rest, boy =>
    let o := o.move_horizontally velocity
    match o.check_intersection boy with
    | none => none
    | some boy =>
      match passOnce velocity rest boy with
      | none => none
      | some (rest, boy) => some (o :: rest, boy)

/-- The character-only content of a pass: fold the post-move collision checks
over the obstacle list, left to right. -/
def checkFold (velocity : Int) :
    List Obstacle → RedHatBoy → Option RedHatBoy
  | [], boy => some boy
  | o :: rest, boy =>
    match (o.move_horizontally velocity).check_intersection boy with
    | none => none
    | some boy => checkFold velocity rest boy

/-- The `WalkTheDog::update` body for a loaded game (src/src/game.rs lines
91-139): key events, character update, obstacle retirement, first
move-and-check pass, background scrolling and relocation, second
move-and-check pass, then timeline bookkeeping / spawning.
`stone_and_platform` lives in the `segments` module, which is not under
`src/`; following the spec (§4.3 step 4, "generate the next fixed obstacle
template ... anchored at `timeline + spawn_buffer`") it is passed in as an
anchor-indexed obstacle-template function `sp`. -/
def walkUpdate (sp : Int → List Obstacle) (keystate : KeyState) (walk : Walk) :
    Option Walk :=
  let boy := (applyKeys keystate walk.boy).update
  let velocity := -boy.walk_speed
  let kept := walk.obstacles.filter fun o => decide (0 < o.right)
  match passOnce velocity kept boy with
  | none => none
  | some (obs, boy) =>
    let first_background := walk.background.1.move_horizontally velocity
    let second_background := walk.background.2.move_horizontally velocity
    let first_background :=
      if first_background.right < 0 then
        first_background.set_x second_background.right
      else first_background
    let second_background :=
      if second_background.right < 0 then
        second_background.set_x first_background.right
      else second_background
    match passOnce velocity obs boy with
    | none => none
    | some (obs, boy) =>
      if walk.timeline < TIMELINE_MINIMUM then
        let next := sp (walk.timeline + OBSTACLE_BUFFER)
        some ⟨boy, (first_background, second_background), obs ++ next,
              rightmost next⟩
      else
        some ⟨boy, (first_background, second_background), obs,
              walk.timeline + velocity⟩

/-- The `WalkTheDog` game union: `Loading` or `Loaded(Walk)`. -/
inductive WalkTheDog where
  | loading
  | loaded (walk : Walk)
deriving DecidableEq, Repr

/-- Source `WalkTheDog::update` (a no-op while loading). -/
def WalkTheDog.update (sp : Int → List Obstacle) (keystate : KeyState) :
    WalkTheDog → Option WalkTheDog
  | .loading => some .loading
  | .loaded walk => (walkUpdate sp keystate walk).map .loaded

/-- The world tick as claim C1 describes it, for the refinement comparison
with `walkUpdate`: identical except that the character's `Update` event is
delivered only after both per-obstacle move-and-check passes. -/
def claimOrderUpdate (sp : Int → List Obstacle) (keystate : KeyState)
    (walk : Walk) : Option Walk :=
  let boy := applyKeys keystate walk.boy
  let velocity := -boy.walk_speed
  let kept := walk.obstacles.filter fun o => decide (0 < o.right)
  match passOnce velocity kept boy with
  | none => none
  | some (obs, boy) =>
    let first_background := walk.background.1.move_horizontally velocity
    let second_background := walk.background.2.move_horizontally velocity
    let first_background :=
      if first_background.right < 0 then
        first_background.set_x second_background.right
      else first_background
    let second_background :=
      if second_background.right < 0 then
        second_background.set_x first_background.right
      else second_background
    match passOnce velocity obs boy with
    | none => none
    | some (obs, boy) =>
      let boy := boy.update
      if walk.timeline < TIMELINE_MINIMUM then
        let next := sp (walk.timeline + OBSTACLE_BUFFER)
        some ⟨boy, (first_background, second_background), obs ++ next,
              rightmost next⟩
      else
        some ⟨boy, (first_background, second_background), obs,
              walk.timeline + velocity⟩

/-- The character the per-obstacle passes of a tick start from: the input
character after key events and its own `Update`. -/
def tickBoyStart (keystate : KeyState) (w : Walk) : RedHatBoy :=
  (applyKeys keystate w.boy).update

/-- The scroll velocity a tick uses (read from the character after its
update, as `WalkTheDog::update` does). -/
def tickVelocity (keystate : KeyState) (w : Walk) : Int :=
  -(tickBoyStart keystate w).walk_speed

/-- The obstacle list a tick operates on, after the retirement `retain`. -/
def keptObstacles (w : Walk) : List Obstacle :=
  w.obstacles.filter fun o => decide (0 < o.right)

/-- The (state, event) pairs for which `RedHatBoyStateMachine::transition`
has an explicit match arm; every other pair falls into the `_ => self`
catch-all. -/
def legalEvent (m : RedHatBoyStateMachine) (e : Event) : Bool :=
  match m, e with
  | .idle _, .run => true
  | .running _, .slide => true
  | .running _, .jump => true
  | .running _, .knockOut => true
  | .sliding _, .knockOut => true
  | .jumping _, .knockOut => true
  | .idle _, .update => true
  | .running _, .update => true
  | .sliding _, .update => true
  | .jumping _, .update => true
  | .falling _, .update => true
  | .jumping _, .land _ => true
  | .running _, .land _ => true
  | _, _ => false

/-- C4: For every state `S` of the character state machine and every event
`E` that is not listed as legal for `S` (e.g. `Run` from Running, `Slide`
from Idle, any event in KnockedOut), `transition(S, E) = S`: the machine is
returned unchanged, with the whole context (frame, position, velocity)
identical. -/
theorem C4_illegal_event_noop (m : RedHatBoyStateMachine) (e : Event)
    (h : legalEvent m e = false) : m.transition e = m := by
  cases m <;> cases e <;> first
    | rfl
    | simp [legalEvent] at h

/-- Witness for C4 at a concrete input: `Run` delivered in Running is not a
legal pair and leaves the machine unchanged. -/
theorem C4_illegal_event_noop_witness :
    legalEvent (.running ⟨7, ⟨-20, 400⟩, ⟨3, 5⟩⟩) .run = false ∧
    (RedHatBoyStateMachine.running ⟨7, ⟨-20, 400⟩, ⟨3, 5⟩⟩).transition .run =
      .running ⟨7, ⟨-20, 400⟩, ⟨3, 5⟩⟩ :=
  ⟨by decide, C4_illegal_event_noop _ _ (by decide)⟩

/-- C9: For every Running state and every `y`, applying `land_on(y)` twice in
immediate succession yields the same machine (hence the same final position)
as applying it once, and the resulting vertical position depends only on `y`,
not on the position held before the call. -/
theorem C9_land_on_idempotent (c c₂ : RedHatBoyContext) (y : Int) :
    (((RedHatBoyStateMachine.running c).transition (.land y)).transition
        (.land y)) =
      (RedHatBoyStateMachine.running c).transition (.land y) ∧
    ((RedHatBoyStateMachine.running c).transition (.land y)).context.position.y
      = ((RedHatBoyStateMachine.running c₂).transition
          (.land y)).context.position.y := by
  constructor <;>
    simp [RedHatBoyStateMachine.transition, Running.land_on,
      RedHatBoyContext.set_on, RedHatBoyStateMachine.context]

theorem transition_position_x (m : RedHatBoyStateMachine) (e : Event) :
    (m.transition e).context.position.x = m.context.position.x := by
  cases m <;> cases e <;> first
    | rfl
    | (simp only [RedHatBoyStateMachine.transition, Sliding.update,
        Jumping.update, Falling.update]
       split <;> rfl)

theorem reachable_position_x (m : RedHatBoyStateMachine) (h : Reachable m) :
    m.context.position.x = STARTING_POINT := by
  induction h with
  | init => rfl
  | step e _ ih => rw [transition_position_x]; exact ih

/-- C10: The character's horizontal position is never modified by any event
or update tick: every transition leaves `position.x` unchanged, and on every
reachable machine it equals the fixed starting offset. -/
theorem C10_position_x_constant (m : RedHatBoyStateMachine) (e : Event)
    (h : Reachable m) :
    (m.transition e).context.position.x = m.context.position.x ∧
    (m.transition e).context.position.x = STARTING_POINT := by
  exact ⟨transition_position_x m e,
    reachable_position_x _ (Reachable.step e h)⟩

/-- Witness for C10 at a concrete input: the initial machine is reachable and
an `Update` tick keeps `position.x` at the starting offset. -/
theorem C10_position_x_constant_witness :
    (idleNewState.transition .update).context.position.x =
      idleNewState.context.position.x ∧
    (idleNewState.transition .update).context.position.x = STARTING_POINT :=
  C10_position_x_constant idleNewState .update Reachable.init

theorem update_frame (c : RedHatBoyContext) (n : Nat) :
    (c.update n).frame = (c.frame + 1) % n := rfl

theorem update_velocity_y (c : RedHatBoyContext) (n : Nat) :
    (c.update n).velocity.y =
      if c.velocity.y < TERMINAL_VELOCITY then c.velocity.y + GRAVITY
      else c.velocity.y := rfl

theorem update_position_y (c : RedHatBoyContext) (n : Nat) :
    (c.update n).position.y =
      min (c.position.y + (c.update n).velocity.y) FLOOR := rfl

theorem update_velocity_y_le (c : RedHatBoyContext) (n : Nat)
    (h : c.velocity.y ≤ TERMINAL_VELOCITY) :
    (c.update n).velocity.y ≤ TERMINAL_VELOCITY := by
  rw [update_velocity_y]
  simp only [TERMINAL_VELOCITY, GRAVITY] at h ⊢
  split <;> omega

theorem transition_velocity_y_le (m : RedHatBoyStateMachine) (e : Event)
    (h : m.context.velocity.y ≤ TERMINAL_VELOCITY) :
    (m.transition e).context.velocity.y ≤ TERMINAL_VELOCITY := by
  cases m <;> cases e <;> first
    | exact h
    | exact update_velocity_y_le _ _ h
    | exact (by decide : JUMP_SPEED ≤ TERMINAL_VELOCITY)
    | exact (by decide : GRAVITY ≤ TERMINAL_VELOCITY)
    | (rename_i c
       simp only [RedHatBoyStateMachine.transition, Sliding.update,
         Jumping.update, Falling.update]
       split <;> exact update_velocity_y_le c SLIDING_FRAMES h)

/-- C8: one context `update()` never decreases the vertical velocity, never
raises it above the terminal-velocity constant, and always leaves
`position.y` at most the floor constant; moreover every reachable machine
state keeps its vertical velocity at most the terminal velocity, so the cap
holds along every run of repeated ticks. -/
theorem C8_vertical_motion (c : RedHatBoyContext) (frame_count : Nat) :
    c.velocity.y ≤ (c.update frame_count).velocity.y ∧
    (c.velocity.y ≤ TERMINAL_VELOCITY →
      (c.update frame_count).velocity.y ≤ TERMINAL_VELOCITY) ∧
    (c.update frame_count).position.y ≤ FLOOR ∧
    ∀ m : RedHatBoyStateMachine, Reachable m →
      m.context.velocity.y ≤ TERMINAL_VELOCITY := by
  refine ⟨?_, fun h => update_velocity_y_le c frame_count h, ?_, ?_⟩
  · rw [update_velocity_y]
    simp only [GRAVITY]
    split <;> omega
  · rw [update_position_y]
    exact min_le_right _ _
  · intro m h
    induction h with
    | init => decide
    | step e _ ih => exact transition_velocity_y_le _ e ih

/-- Witness for C8 at a concrete input: a Jumping-style context with vertical
velocity 20 at the terminal cap. -/
theorem C8_vertical_motion_witness :
    ((⟨3, ⟨-20, 400⟩, ⟨3, 20⟩⟩ : RedHatBoyContext).velocity.y ≤
      ((⟨3, ⟨-20, 400⟩, ⟨3, 20⟩⟩ : RedHatBoyContext).update
          JUMPING_FRAMES).velocity.y) ∧
    ((⟨3, ⟨-20, 400⟩, ⟨3, 20⟩⟩ : RedHatBoyContext).velocity.y ≤
        TERMINAL_VELOCITY ∧
      ((⟨3, ⟨-20, 400⟩, ⟨3, 20⟩⟩ : RedHatBoyContext).update
          JUMPING_FRAMES).velocity.y ≤ TERMINAL_VELOCITY) ∧
    ((⟨3, ⟨-20, 400⟩, ⟨3, 20⟩⟩ : RedHatBoyContext).update
        JUMPING_FRAMES).position.y ≤ FLOOR ∧
    idleNewState.context.velocity.y ≤ TERMINAL_VELOCITY :=
  ⟨(C8_vertical_motion _ JUMPING_FRAMES).1,
   ⟨by decide, (C8_vertical_motion _ JUMPING_FRAMES).2.1 (by decide)⟩,
   (C8_vertical_motion _ JUMPING_FRAMES).2.2.1,
   (C8_vertical_motion ⟨0, ⟨0, 0⟩, ⟨0, 0⟩⟩ 1).2.2.2 idleNewState
     Reachable.init⟩

/-- C7: delivering `KnockOut` in Running, Sliding or Jumping produces the
Falling state with frame counter 0, horizontal velocity 0 and vertical
velocity equal to the gravity constant; in particular a character whose
bounding box overlaps a Barrier while Running is knocked into exactly that
Falling state by `Barrier::check_intersection`. -/
theorem C7_knock_out_enters_falling (c : RedHatBoyContext) :
    (RedHatBoyStateMachine.running c).transition .knockOut =
      .falling ⟨0, c.position, ⟨0, GRAVITY⟩⟩ ∧
    (RedHatBoyStateMachine.sliding c).transition .knockOut =
      .falling ⟨0, c.position, ⟨0, GRAVITY⟩⟩ ∧
    (RedHatBoyStateMachine.jumping c).transition .knockOut =
      .falling ⟨0, c.position, ⟨0, GRAVITY⟩⟩ ∧
    ∀ (image : Image) (boy : RedHatBoy) (bb : Rect),
      boy.state_machine = .running c →
      boy.bounding_box = some bb →
      bb.intersects image.bounding_box = true →
      (Obstacle.check_intersection (.barrier image) boy).map
          RedHatBoy.state_machine =
        some (.falling ⟨0, c.position, ⟨0, GRAVITY⟩⟩) := by
  refine ⟨rfl, rfl, rfl, ?_⟩
  intro image boy bb hm hbb hint
  simp only [Obstacle.check_intersection, hbb, hint, if_true,
    RedHatBoy.knock_out, Option.map_some, hm]
  rfl

/-- A 100×100 sprite cell at the sheet origin with zero source offset, for
concrete test characters. -/
def cell100 : Cell := ⟨⟨0, 0, 100, 100⟩, ⟨0, 0⟩⟩

/-- A concrete sprite sheet holding the two cells a running-then-falling
character needs. -/
def sheet0 : List (String × Cell) :=
  [("Run (1).png", cell100), ("Dead (1).png", cell100)]

/-- A concrete Running character at the starting offset on the floor, with
`velocity = {3, 0}`. -/
def boy0 : RedHatBoy := ⟨.running ⟨0, ⟨-20, 479⟩, ⟨3, 0⟩⟩, sheet0⟩

/-- A concrete barrier whose bounding box covers the whole play area. -/
def barrier0 : Image := ⟨⟨0, 0, 600, 1000⟩⟩

/-- Witness for C7 at a concrete input: `boy0` (Running, `velocity.y = 0`)
overlaps `barrier0` and is knocked into Falling with `velocity = {0, 1}`. -/
theorem C7_knock_out_enters_falling_witness :
    boy0.state_machine = .running ⟨0, ⟨-20, 479⟩, ⟨3, 0⟩⟩ ∧
    boy0.bounding_box = some ⟨-2, 493, 72, 86⟩ ∧
    Rect.intersects ⟨-2, 493, 72, 86⟩ barrier0.bounding_box = true ∧
    (Obstacle.check_intersection (.barrier barrier0) boy0).map
        RedHatBoy.state_machine =
      some (.falling ⟨0, ⟨-20, 479⟩, ⟨0, GRAVITY⟩⟩) :=
  ⟨rfl, by decide, by decide,
   (C7_knock_out_enters_falling ⟨0, ⟨-20, 479⟩, ⟨3, 0⟩⟩).2.2.2 barrier0 boy0
     ⟨-2, 493, 72, 86⟩ rfl (by decide) (by decide)⟩

/-- C2 (amended): a Jumping character lands on the tick where its updated
vertical position reaches the floor constant; it becomes Running with the
frame counter reset to 0 and `position.y` exactly `HEIGHT - PLAYER_HEIGHT`,
which equals the floor constant itself (the code lands via
`land_on(HEIGHT)`), not `FLOOR - PLAYER_HEIGHT`. -/
theorem C2_lands_on_floor (c : RedHatBoyContext)
    (h : (c.update JUMPING_FRAMES).position.y ≥ FLOOR) :
    (RedHatBoyStateMachine.jumping c).transition .update =
      .running ⟨0, ⟨c.position.x, HEIGHT - PLAYER_HEIGHT⟩,
        (c.update JUMPING_FRAMES).velocity⟩ ∧
    HEIGHT - PLAYER_HEIGHT = FLOOR := by
  constructor
  · show Jumping.update c = _
    simp only [Jumping.update]
    rw [if_pos h]
    rfl
  · decide

/-- Witness for C2 at a concrete input: a Jumping context one pixel above the
floor, falling at the terminal velocity. -/
theorem C2_lands_on_floor_witness :
    ((⟨0, ⟨-20, 478⟩, ⟨0, 20⟩⟩ : RedHatBoyContext).update
        JUMPING_FRAMES).position.y ≥ FLOOR ∧
    (RedHatBoyStateMachine.jumping ⟨0, ⟨-20, 478⟩, ⟨0, 20⟩⟩).transition
        .update =
      .running ⟨0, ⟨-20, HEIGHT - PLAYER_HEIGHT⟩,
        ((⟨0, ⟨-20, 478⟩, ⟨0, 20⟩⟩ : RedHatBoyContext).update
            JUMPING_FRAMES).velocity⟩ :=
  ⟨by decide, (C2_lands_on_floor ⟨0, ⟨-20, 478⟩, ⟨0, 20⟩⟩ (by decide)).1⟩

/-- The event path `Run`, `Jump`, then 49 `Update` ticks: it leaves the
character Jumping just above the floor, about to land. -/
def aboutToLand : RedHatBoyStateMachine :=
  ([Event.run, Event.jump] ++ List.replicate 49 Event.update).foldl
    RedHatBoyStateMachine.transition idleNewState

/-- Counterexample to C2 as stated: on the reachable landing tick the
character becomes Running with frame 0, but `position.y` is the floor
constant `479`, not `floor - player_height = 358`. -/
theorem C2_claim_counterexample :
    Reachable aboutToLand ∧
    tagOf aboutToLand = .jumping ∧
    aboutToLand.context.position.y < FLOOR ∧
    tagOf (aboutToLand.transition .update) = .running ∧
    (aboutToLand.transition .update).context.frame = 0 ∧
    (aboutToLand.transition .update).context.position.y ≠
      FLOOR - PLAYER_HEIGHT ∧
    (aboutToLand.transition .update).context.position.y = FLOOR :=
  ⟨reachable_after_events _ _ Reachable.init, by decide, by decide, by decide,
   by decide, by decide, by decide⟩

theorem transition_frame_lt (m : RedHatBoyStateMachine) (e : Event)
    (h : m.context.frame < frameCount m) :
    (m.transition e).context.frame < frameCount (m.transition e) := by
  cases m <;> cases e <;> first
    | exact h
    | exact Nat.mod_lt _ (by decide)
    | exact (by decide : (0 : Nat) < RUNNING_FRAMES)
    | exact (by decide : (0 : Nat) < SLIDING_FRAMES)
    | exact (by decide : (0 : Nat) < JUMPING_FRAMES)
    | exact (by decide : (0 : Nat) < FALLING_FRAMES)
    | (simp only [RedHatBoyStateMachine.transition, Sliding.update,
         Jumping.update, Falling.update]
       split <;> first
         | exact Nat.mod_lt _ (by decide)
         | exact (by decide : (0 : Nat) < RUNNING_FRAMES))

theorem reachable_frame_lt (m : RedHatBoyStateMachine) (h : Reachable m) :
    m.context.frame < frameCount m := by
  induction h with
  | init => decide
  | step e _ ih => exact transition_frame_lt _ e ih

/-- C3 (amended): on every reachable state the frame counter is strictly
below that state's frame count, and every state-changing transition resets
the frame counter to 0 — except the Falling→KnockedOut transition, which
carries the frame over and is only taken at the last frame of the fall
animation (`FALLING_FRAMES - 1`). -/
theorem C3_frame_invariant :
    (∀ m : RedHatBoyStateMachine, Reachable m →
      m.context.frame < frameCount m) ∧
    ∀ (m : RedHatBoyStateMachine) (e : Event),
      tagOf (m.transition e) ≠ tagOf m →
        (m.transition e).context.frame = 0 ∨
        (tagOf (m.transition e) = .knockedOut ∧
          (m.transition e).context.frame + 1 = FALLING_FRAMES) := by
  refine ⟨fun m h => reachable_frame_lt m h, ?_⟩
  intro m e h
  cases m <;> cases e <;> first
    | exact absurd rfl h
    | exact Or.inl rfl
    | (rename_i c
       revert h
       simp only [RedHatBoyStateMachine.transition, Sliding.update,
         Jumping.update, Falling.update]
       split <;> intro h
       case isTrue hcond =>
         first
           | exact Or.inl rfl
           | (refine Or.inr ⟨rfl, ?_⟩
              show (c.update FALLING_FRAMES).frame + 1 = FALLING_FRAMES
              rw [update_frame] at hcond ⊢
              simp only [FALLING_FRAMES] at hcond ⊢
              omega)
       case isFalse => exact absurd rfl h)

/-- Witness for C3 at concrete inputs: the initial machine satisfies the
frame bound, and the reachable Sliding→Running auto-transition of a slide's
last tick resets the frame to 0. -/
theorem C3_frame_invariant_witness :
    Reachable idleNewState ∧
    idleNewState.context.frame < frameCount idleNewState ∧
    tagOf ((RedHatBoyStateMachine.running ⟨5, ⟨-20, 479⟩, ⟨3, 0⟩⟩).transition
        .slide) ≠
      tagOf (RedHatBoyStateMachine.running ⟨5, ⟨-20, 479⟩, ⟨3, 0⟩⟩) ∧
    (((RedHatBoyStateMachine.running ⟨5, ⟨-20, 479⟩, ⟨3, 0⟩⟩).transition
          .slide).context.frame = 0 ∨
      (tagOf ((RedHatBoyStateMachine.running ⟨5, ⟨-20, 479⟩, ⟨3, 0⟩⟩).transition
            .slide) = .knockedOut ∧
        ((RedHatBoyStateMachine.running ⟨5, ⟨-20, 479⟩, ⟨3, 0⟩⟩).transition
              .slide).context.frame + 1 = FALLING_FRAMES)) :=
  ⟨Reachable.init, C3_frame_invariant.1 idleNewState Reachable.init,
   by decide, C3_frame_invariant.2 _ .slide (by decide)⟩

/-- The event path `Run`, `KnockOut`, then 28 `Update` ticks: it leaves the
character Falling at frame 28, one tick before the knock-out completes. -/
def aboutToKnockOut : RedHatBoyStateMachine :=
  ([Event.run, Event.knockOut] ++ List.replicate 28 Event.update).foldl
    RedHatBoyStateMachine.transition idleNewState

/-- Counterexample to C3 as stated: the reachable Falling→KnockedOut
transition is state-changing yet leaves the frame counter at 29, not 0. -/
theorem C3_claim_counterexample :
    Reachable aboutToKnockOut ∧
    tagOf aboutToKnockOut = .falling ∧
    tagOf (aboutToKnockOut.transition .update) = .knockedOut ∧
    (aboutToKnockOut.transition .update).context.frame ≠ 0 ∧
    (aboutToKnockOut.transition .update).context.frame = 29 :=
  ⟨reachable_after_events _ _ Reachable.init, by decide, by decide, by decide,
   by decide⟩

theorem find_first_of_prefix {α : Type} (p : α → Bool) (pre post : List α)
    (b : α) (hpre : ∀ r ∈ pre, p r = false) (hb : p b = true) :
    (pre ++ b :: post).find? p = some b := by
  induction pre with
  | nil => exact List.find?_cons_of_pos _ hb
  | cons r rest ih =>
    rw [List.cons_append, List.find?_cons_of_neg _ (by
      rw [hpre r (List.mem_cons_self r rest)]; exact Bool.false_ne_true)]
    exact ih fun x hx => hpre x (List.mem_cons_of_mem r hx)

/-- C6: `Platform::check_intersection` considers only the first of the
platform's sub-bounding-boxes that overlaps the character's box (later boxes
are arbitrary); for that box it calls `land_on` with the box's top coordinate
when the character's vertical velocity is positive and the character's top is
above the platform's top, and `knock_out` in every other overlapping case. -/
theorem C6_platform_first_box (position : Point) (pre post : List Rect)
    (box : Rect) (boy : RedHatBoy) (bb : Rect)
    (hbb : boy.bounding_box = some bb)
    (hpre : ∀ r ∈ pre, bb.intersects r = false)
    (hbox : bb.intersects box = true) :
    Obstacle.check_intersection (.platform position (pre ++ box :: post)) boy
      = some (if boy.velocity_y > 0 ∧ boy.pos_y < position.y
              then boy.land_on box.y else boy.knock_out) := by
  have hfind : (pre ++ box :: post).find? (fun r => bb.intersects r) =
      some box := find_first_of_prefix _ pre post box hpre hbox
  cases pre with
  | nil =>
    simp only [List.nil_append] at hfind ⊢
    simp only [Obstacle.check_intersection, hbb, hfind]
    split <;> rfl
  | cons r rest =>
    simp only [List.cons_append] at hfind ⊢
    simp only [Obstacle.check_intersection, hbb, hfind]
    split <;> rfl

/-- A concrete Jumping character descending above a platform. -/
def boyJ : RedHatBoy :=
  ⟨.jumping ⟨0, ⟨-20, 300⟩, ⟨0, 5⟩⟩, [("Jump (1).png", cell100)]⟩

/-- Witness for C6 at a concrete input: a two-box platform whose first box
does not overlap `boyJ` and whose second does; the descending character lands
on the second box's top. -/
theorem C6_platform_first_box_witness :
    boyJ.bounding_box = some ⟨-2, 314, 72, 86⟩ ∧
    (∀ r ∈ [(⟨1000, 0, 10, 10⟩ : Rect)],
      Rect.intersects ⟨-2, 314, 72, 86⟩ r = false) ∧
    Rect.intersects ⟨-2, 314, 72, 86⟩ ⟨0, 350, 600, 60⟩ = true ∧
    Obstacle.check_intersection
        (.platform ⟨200, 400⟩
          ([⟨1000, 0, 10, 10⟩] ++ (⟨0, 350, 600, 60⟩ : Rect) ::
            [⟨0, 0, 5, 5⟩])) boyJ
      = some (if boyJ.velocity_y > 0 ∧ boyJ.pos_y < (⟨200, 400⟩ : Point).y
              then boyJ.land_on (⟨0, 350, 600, 60⟩ : Rect).y
              else boyJ.knock_out) :=
  ⟨by decide, by decide, by decide,
   C6_platform_first_box ⟨200, 400⟩ [⟨1000, 0, 10, 10⟩] [⟨0, 0, 5, 5⟩]
     ⟨0, 350, 600, 60⟩ boyJ ⟨-2, 314, 72, 86⟩ (by decide) (by decide)
     (by decide)⟩

theorem passOnce_eq (v : Int) (obs : List Obstacle) (boy : RedHatBoy) :
    passOnce v obs boy = (checkFold v obs boy).map
      (fun b => (obs.map (fun o => o.move_horizontally v), b)) := by
  induction obs generalizing boy with
  | nil => rfl
  | cons o rest ih =>
    cases h : (o.move_horizontally v).check_intersection boy with
    | none => simp [passOnce, checkFold, h]
    | some b =>
      simp only [passOnce, checkFold, h, ih b]
      cases hcf : checkFold v rest b with
      | none => rfl
      | some b2 => rfl

/-- C1 (amended): in every loaded-game tick the per-obstacle collision checks
run against each obstacle's post-move position (each obstacle is moved by the
scroll velocity inside `checkFold` immediately before its check), but only
*after* the character's own state machine has been advanced for the tick: the
character the checks start from is `tickBoyStart`, the input character after
key events and its `Update`. -/
theorem C1_collision_after_boy_update (sp : Int → List Obstacle)
    (k : KeyState) (w : Walk) :
    (walkUpdate sp k w).map Walk.boy =
      (checkFold (tickVelocity k w) (keptObstacles w) (tickBoyStart k w)).bind
        (checkFold (tickVelocity k w)
          ((keptObstacles w).map fun o =>
            o.move_horizontally (tickVelocity k w))) := by
  unfold walkUpdate tickVelocity tickBoyStart keptObstacles
  simp only [passOnce_eq]
  cases h1 : checkFold (-(applyKeys k w.boy).update.walk_speed)
      (w.obstacles.filter fun o => decide (0 < o.right))
      (applyKeys k w.boy).update with
  | none => rfl
  | some b2 =>
    simp only [Option.map_some', Option.some_bind, passOnce_eq]
    cases h2 : checkFold (-(applyKeys k w.boy).update.walk_speed)
        ((w.obstacles.filter fun o => decide (0 < o.right)).map fun o =>
          o.move_horizontally (-(applyKeys k w.boy).update.walk_speed)) b2 with
    | none => rfl
    | some b3 =>
      simp only [Option.map_some']
      split <;> rfl

/-- A no-key keyboard state. -/
def ksNone : KeyState := ⟨false, false, false⟩

/-- An empty obstacle template (the spawner is not exercised by the concrete
worlds below, whose timeline is above the spawn threshold). -/
def spNone : Int → List Obstacle := fun _ => []

/-- A concrete loaded world: `boy0` running on the floor, one all-covering
barrier, two background tiles, timeline past the spawn threshold. -/
def w0 : Walk :=
  ⟨boy0, (⟨⟨0, 0, 600, 600⟩⟩, ⟨⟨600, 0, 600, 600⟩⟩), [.barrier barrier0],
   2000⟩

/-- Counterexample to C1 as stated: running the same concrete tick with the
collision checks moved before the character's `Update` (as the claim
describes) produces a different character — the code's order knocks the
character out after its update (Falling, frame 0), the claimed order would
deliver the update to the already-falling character (frame 1). -/
theorem C1_claim_counterexample :
    (walkUpdate spNone ksNone w0).map (fun w => w.boy.state_machine) =
      some (.falling ⟨0, ⟨-20, 479⟩, ⟨0, 1⟩⟩) ∧
    (claimOrderUpdate spNone ksNone w0).map (fun w => w.boy.state_machine) =
      some (.falling ⟨1, ⟨-20, 479⟩, ⟨0, 2⟩⟩) ∧
    (walkUpdate spNone ksNone w0).map (fun w => w.boy.state_machine) ≠
      (claimOrderUpdate spNone ksNone w0).map (fun w => w.boy.state_machine)
    := ⟨by decide, by decide, by decide⟩

/-- C5: in every loaded-game tick, each retained obstacle is moved
horizontally by the scroll velocity and collision-checked exactly twice, both
times in the same list order: the final obstacle list is the retained list
with every obstacle moved twice (plus whatever the spawner appends), guarded
by the two successive in-order check passes. -/
theorem C5_obstacles_double_pass (sp : Int → List Obstacle) (k : KeyState)
    (w : Walk) :
    (walkUpdate sp k w).map Walk.obstacles =
      ((checkFold (tickVelocity k w) (keptObstacles w)
          (tickBoyStart k w)).bind
        (checkFold (tickVelocity k w)
          ((keptObstacles w).map fun o =>
            o.move_horizontally (tickVelocity k w)))).map
        (fun _ =>
          ((keptObstacles w).map fun o =>
              (o.move_horizontally (tickVelocity k w)).move_horizontally
                (tickVelocity k w)) ++
            (if w.timeline < TIMELINE_MINIMUM then
              sp (w.timeline + OBSTACLE_BUFFER)
            else [])) := by
  unfold walkUpdate tickVelocity tickBoyStart keptObstacles
  simp only [passOnce_eq]
  cases h1 : checkFold (-(applyKeys k w.boy).update.walk_speed)
      (w.obstacles.filter fun o => decide (0 < o.right))
      (applyKeys k w.boy).update with
  | none => rfl
  | some b2 =>
    simp only [Option.map_some', Option.some_bind, passOnce_eq]
    cases h2 : checkFold (-(applyKeys k w.boy).update.walk_speed)
        ((w.obstacles.filter fun o => decide (0 < o.right)).map fun o =>
          o.move_horizontally (-(applyKeys k w.boy).update.walk_speed)) b2 with
    | none => rfl
    | some b3 =>
      simp only [Option.map_some']
      split <;> simp [Function.comp, List.map_map]

end WalkTheDogModel
